import Mathlib

/-!
Verification of the claims in the specification of the abipy CLI layer
(src/abipy/scripts/abinp.py, src/abipy/data/ucells.py,
src/abipy/tools/printing.py) against a shallow embedding of that code.

The embedding translates the Python sources into executable Lean
definitions.  External collaborators (filesystem, the pseudo_dojo
provider, the factory library, the Abinit subprocess, the structure
parsers) are abstracted into an explicit environment record `Env` whose
fields are pure functions; everything the repository itself does is
translated literally.
-/

namespace Abinp

/-- Python exception taxonomy relevant to abinp.py, as raised by the code:
TypeError in get_structure, NotImplementedError in get_pseudotable,
ImportError when pseudo_dojo is absent, and the exception raised by
the external Structure.from_file loader on a missing file. -/
inductive Err where
  | typeError (msg : String)
  | notImplementedError (msg : String)
  | importError
  | fileNotFound (path : String)
  | indexError
  | keyError (name : String)
  deriving DecidableEq, Repr

/-- Result of resolving a crystalline structure: which external loader was
invoked and with which arguments (the structure object itself is opaque). -/
inductive StructureSrc where
  | fromFile (path : String)
  | fromMpid (mpid : String) (api_key : Option String) (endpoint : String)
  deriving DecidableEq, Repr

/-- Result of resolving a pseudopotential table: an explicit file list via
PseudoTable.as_table, or a named PseudoDojo official table. -/
inductive PseudoSrc where
  | fromFiles (files : List String)
  | dojoTable (name : String)
  deriving DecidableEq, Repr

/-- The parsed command-line options record (the fields of the argparse
Namespace that the handlers consult). -/
structure Options where
  filepath : String
  pseudos : Option (List String)
  usepaw : Bool
  mapi_key : Option String
  endpoint : String
  mnemonics : Bool
  jdtset : Int
  verbose : Nat

/-- Variables of an Abinit input: an association list from variable name to
integer value, newest binding first (the handlers only ever store small
integers such as getwfk = 1, getscr = -1, chkprim = 0). -/
abbrev AbiVars := List (String × Int)

/-- Python dict lookup d[k] on an AbiVars association list. -/
def lookupVar (xs : AbiVars) (k : String) : Option Int :=
  (xs.find? (fun p => p.1 = k)).map (fun p => p.2)

/-- Python dict item assignment d[k] = v on an AbiVars association list. -/
def setVar (xs : AbiVars) (k : String) (v : Int) : AbiVars :=
  (k, v) :: xs.filter (fun p => p.1 ≠ k)

/-- Python dict.update: apply every binding of extra to base, in order,
so that later bindings win. -/
def updateVars (base extra : AbiVars) : AbiVars :=
  extra.foldl (fun acc p => setVar acc p.1 p.2) base

/-- The parsed content of an existing Abinit input file as exposed by the
external AbinitInputFile class: the per-dataset variable sets and ndtset. -/
structure AbiFile where
  datasets : List AbiVars
  ndtset : Nat

/-- Outcome of running the external Abinit executable through abivalidate:
its return code, and what happens when abiopen tries to parse the produced
output file (ok, or an exception message). -/
structure ValidateR where
  retcode : Int
  parseOutput : Except String Unit

/-- The external world as seen by abinp.py: filesystem existence, whether
the pseudo_dojo package is importable, the external input-file reader, the
external factory functions, the Abinit subprocess, and the deck renderer.
All opaque collaborators; the repository code is translated around them. -/
structure Env where
  fileExists : String → Bool
  dojoInstalled : Bool
  readAbifile : String → AbiFile
  gs_factory : StructureSrc → PseudoSrc → AbiVars
  ebands_factory : StructureSrc → PseudoSrc → List AbiVars
  phonons_factory : AbiVars → List AbiVars
  g0w0_factory : StructureSrc → PseudoSrc → List AbiVars
  abivalidate : AbiVars → ValidateR
  render : Bool → List AbiVars → String

/-- Embedding of Python str.startswith(p): the first len(p) characters of
the string equal p. -/
def str_startswith (s p : String) : Bool :=
  s.data.take p.data.length == p.data

/-- Translation of get_structure (abinp.py lines 20-29): filesystem
existence first, then the mp- identifier branch, else TypeError. -/
def get_structure (env : Env) (options : Options) : Except Err StructureSrc :=
  if env.fileExists options.filepath then
    .ok (.fromFile options.filepath)
  else if str_startswith options.filepath "mp-" then
    .ok (.fromMpid options.filepath options.mapi_key options.endpoint)
  else
    .error (.typeError options.filepath)

/-- Translation of get_pseudotable (abinp.py lines 32-53): an explicit
pseudos list is returned at once; otherwise pseudo_dojo is imported
(ImportError re-raised when absent), then usepaw raises
NotImplementedError, else the fixed official table is selected. -/
def get_pseudotable (env : Env) (options : Options) : Except Err PseudoSrc :=
  match options.pseudos with
  | some files => .ok (.fromFiles files)
  | none =>
    if env.dojoInstalled = false then
      .error .importError
    else if options.usepaw then
      .error (.notImplementedError "PAW table is missing")
    else
      .ok (.dojoTable "ONCVPSP-PBE-PDv0.2-accuracy")

/-- Model of the external abilab.Structure.from_file collaborator (the
parse-from-file port of the external structure library): it reads an
existing file and fails on a missing path; it never performs a remote
materials-database lookup. -/
def structure_from_file (env : Env) (path : String) : Except Err StructureSrc :=
  if env.fileExists path then .ok (.fromFile path) else .error (.fileNotFound path)

/-- The three fixed disclaimer comment lines printed by finalize
(abinp.py lines 60-62). -/
def disclaimer : List String :=
  ["# This input file template has been automatically generated by the abinp.py script.",
   "# Several input parameters have default values that might not be suitable for you particular calculation.",
   "# Please check the input file, make sure you understand what's happening and modify the template according to your needs"]

/-- Translation of finalize (abinp.py lines 56-63): when the mnemonics
option is set the deck is annotated (set_mnemonics(True), reflected here
as the flag handed to the external renderer), then the rendering, a blank
line and the three disclaimer lines are printed and 0 is returned. -/
def finalize (env : Env) (obj : List AbiVars) (options : Options) : List String × Int :=
  (env.render options.mnemonics obj :: "\n" :: disclaimer, 0)

/-- Python list subscription xs[i] including the negative-index form. -/
def pyGet (xs : List AbiVars) (i : Int) : Option AbiVars :=
  if 0 ≤ i then xs.get? i.toNat
  else if (-i).toNat ≤ xs.length then xs.get? (xs.length - (-i).toNat)
  else none

/-- Translation of build_abinit_input_from_file (abinp.py lines 66-87):
read the input file, resolve the pseudopotential table, select the dataset
at index jdtset - 1, add the jdtset variable when the file holds more than
one dataset, then apply the caller-supplied override variables on top. -/
def build_abinit_input_from_file (env : Env) (options : Options) (abivars : AbiVars) :
    Except Err AbiVars :=
  let abifile := env.readAbifile options.filepath
  match get_pseudotable env options with
  | .error e => .error e
  | .ok _pseudos =>
    let jdtset := options.jdtset
    match pyGet abifile.datasets (jdtset - 1) with
    | none => .error .indexError
    | some vars =>
      let abi_kwargs := if abifile.ndtset ≠ 1 then setVar vars "jdtset" jdtset else vars
      .ok (updateVars abi_kwargs abivars)

/-- Translation of abinp_abispg (abinp.py lines 110-135): build the input
with chkprim = 0 and mem_test = 0 overrides, run abivalidate; a nonzero
return code is returned as is; on return code 0 the output file is parsed,
a parse exception yields return value 1, a successful parse yields 0. -/
def abinp_abispg (env : Env) (options : Options) : Except Err Int :=
  match build_abinit_input_from_file env options [("chkprim", 0), ("mem_test", 0)] with
  | .error e => .error e
  | .ok inp =>
    let r := env.abivalidate inp
    if r.retcode ≠ 0 then
      .ok r.retcode
    else
      match r.parseOutput with
      | .error _ => .ok 1
      | .ok _ => .ok 0

/-- Translation of the loop for inp in multi[1:]: inp[key] = v that the
ebands, phonons and g0w0 handlers run over their multi-dataset results
(abinp.py lines 188-189, 208-209, 228-229): every dataset after the first
gets the binding, the first dataset is left untouched. -/
def patch_tail (multi : List AbiVars) (key : String) (v : Int) : List AbiVars :=
  match multi with
  | [] => []
  | first :: rest => first :: rest.map (fun inp => setVar inp key v)

/-- Translation of multi[-1]["getscr"] = -1 (abinp.py line 230); the
factory always returns a nonempty list of datasets, on which this sets
getscr = -1 on the last one. -/
def patch_last_getscr (multi : List AbiVars) : List AbiVars :=
  match multi.getLast? with
  | none => []
  | some last => multi.dropLast ++ [setVar last "getscr" (-1)]

/-- Translation of abinp_gs (abinp.py lines 166-175): the structure is
loaded with Structure.from_file directly (not through get_structure), the
pseudopotential table is resolved, the gs factory is called and the result
finalized. -/
def abinp_gs (env : Env) (options : Options) : Except Err (List String × Int) :=
  match structure_from_file env options.filepath with
  | .error e => .error e
  | .ok s =>
    match get_pseudotable env options with
    | .error e => .error e
    | .ok p => .ok (finalize env [env.gs_factory s p] options)

/-- Deck construction of abinp_ebands (abinp.py lines 178-189): structure
via get_structure, pseudopotential table, ebands factory, then getwfk = 1
on every dataset after the first. -/
def ebands_deck (env : Env) (options : Options) : Except Err (List AbiVars) :=
  match get_structure env options with
  | .error e => .error e
  | .ok s =>
    match get_pseudotable env options with
    | .error e => .error e
    | .ok p => .ok (patch_tail (env.ebands_factory s p) "getwfk" 1)

/-- Translation of abinp_ebands (abinp.py lines 178-191). -/
def abinp_ebands (env : Env) (options : Options) : Except Err (List String × Int) :=
  match ebands_deck env options with
  | .error e => .error e
  | .ok multi => .ok (finalize env multi options)

/-- Deck construction of abinp_phonons (abinp.py lines 194-209): structure
via get_structure, pseudopotential table, gs factory, phonons factory on
the gs input, then getwfk = 1 on every dataset after the first. -/
def phonons_deck (env : Env) (options : Options) : Except Err (List AbiVars) :=
  match get_structure env options with
  | .error e => .error e
  | .ok s =>
    match get_pseudotable env options with
    | .error e => .error e
    | .ok p => .ok (patch_tail (env.phonons_factory (env.gs_factory s p)) "getwfk" 1)

/-- Translation of abinp_phonons (abinp.py lines 194-211). -/
def abinp_phonons (env : Env) (options : Options) : Except Err (List String × Int) :=
  match phonons_deck env options with
  | .error e => .error e
  | .ok multi => .ok (finalize env multi options)

/-- Deck construction of abinp_g0w0 (abinp.py lines 214-230): structure
via get_structure, pseudopotential table, g0w0 factory, getwfk = -1 on
every dataset after the first and getscr = -1 on the last. -/
def g0w0_deck (env : Env) (options : Options) : Except Err (List AbiVars) :=
  match get_structure env options with
  | .error e => .error e
  | .ok s =>
    match get_pseudotable env options with
    | .error e => .error e
    | .ok p => .ok (patch_last_getscr (patch_tail (env.g0w0_factory s p) "getwfk" (-1)))

/-- Translation of abinp_g0w0 (abinp.py lines 214-232). -/
def abinp_g0w0 (env : Env) (options : Options) : Except Err (List String × Int) :=
  match g0w0_deck env options with
  | .error e => .error e
  | .ok multi => .ok (finalize env multi options)

end Abinp

namespace Abinp

/-- A fixed options record used by concrete witnesses. -/
def optsBase : Options :=
  { filepath := "si.cif", pseudos := none, usepaw := false,
    mapi_key := none, endpoint := "https://www.materialsproject.org/rest/v2",
    mnemonics := false, jdtset := 1, verbose := 0 }

/-- A fixed environment used by concrete witnesses: only si.cif exists on
disk, pseudo_dojo is installed, the external collaborators return fixed
small values. -/
def envBase : Env :=
  { fileExists := fun s => s = "si.cif",
    dojoInstalled := true,
    readAbifile := fun _ => { datasets := [[("ecut", 10)]], ndtset := 1 },
    gs_factory := fun _ _ => [("ecut", 10)],
    ebands_factory := fun _ _ => [[("iscf", 7)], [("iscf", -2)]],
    phonons_factory := fun _ => [[("iscf", 7)], [("rfphon", 1)], [("rfelfd", 2)]],
    g0w0_factory := fun _ _ => [[("iscf", 7)], [("optdriver", 3)], [("optdriver", 4)]],
    abivalidate := fun _ => { retcode := 0, parseOutput := .ok () },
    render := fun _ _ => "DECK" }

end Abinp

namespace Abinp

/-- C1 counterexample: with usepaw = true but an explicit pseudopotential
file list supplied, get_pseudotable succeeds instead of raising the
NotImplementedError-equivalent, refuting the claim that usepaw = true
always fails regardless of the other options. -/
theorem C1_counterexample :
    get_pseudotable envBase
      { optsBase with usepaw := true, pseudos := some ["Si.psp8"] }
      = .ok (.fromFiles ["Si.psp8"]) := by
  rfl

/-- C1 amended: whenever no explicit pseudopotential file list is supplied
and the official-tables provider is installed, usepaw = true fails with
the NotImplementedError-equivalent UnsupportedFeatureError. -/
theorem C1_usepaw_fails (env : Env) (options : Options)
    (hp : options.pseudos = none) (hd : env.dojoInstalled = true)
    (hu : options.usepaw = true) :
    get_pseudotable env options = .error (.notImplementedError "PAW table is missing") := by
  unfold get_pseudotable
  rw [hp]
  simp [hd, hu]

/-- C1 witness: the amended theorem applied at a concrete environment and
options record. -/
theorem C1_usepaw_fails_witness :
    get_pseudotable envBase { optsBase with usepaw := true }
      = .error (.notImplementedError "PAW table is missing") :=
  C1_usepaw_fails envBase { optsBase with usepaw := true } rfl rfl rfl

/-- C3: get_structure does a three-way case analysis: an existing path is
loaded from file (the remote branch never taken, even for paths that start
with mp-), a nonexistent mp- path is fetched remotely with the given key
and endpoint, and anything else fails with the TypeError-equivalent
naming the offending path. -/
theorem C3_get_structure_cases (env : Env) (options : Options) :
    (env.fileExists options.filepath = true →
      get_structure env options = .ok (.fromFile options.filepath)) ∧
    (env.fileExists options.filepath = false →
      str_startswith options.filepath "mp-" = true →
      get_structure env options
        = .ok (.fromMpid options.filepath options.mapi_key options.endpoint)) ∧
    (env.fileExists options.filepath = false →
      str_startswith options.filepath "mp-" = false →
      get_structure env options = .error (.typeError options.filepath)) := by
  refine ⟨fun h => ?_, fun h1 h2 => ?_, fun h1 h2 => ?_⟩ <;>
    simp [get_structure, *]

/-- C3 witness: the three branches exercised at concrete inputs, including
a local file whose name starts with mp- (filesystem wins over the remote
lookup). -/
theorem C3_get_structure_cases_witness :
    (get_structure { envBase with fileExists := fun s => s = "mp-149" }
        { optsBase with filepath := "mp-149" } = .ok (.fromFile "mp-149")) ∧
    (get_structure envBase { optsBase with filepath := "mp-149" }
        = .ok (.fromMpid "mp-149" none "https://www.materialsproject.org/rest/v2")) ∧
    (get_structure envBase { optsBase with filepath := "nope.cif" }
        = .error (.typeError "nope.cif")) :=
  ⟨(C3_get_structure_cases { envBase with fileExists := fun s => s = "mp-149" }
      { optsBase with filepath := "mp-149" }).1 (by decide),
   (C3_get_structure_cases envBase { optsBase with filepath := "mp-149" }).2.1
      (by decide) (by decide),
   (C3_get_structure_cases envBase { optsBase with filepath := "nope.cif" }).2.2
      (by decide) (by decide)⟩

/-- Looking up the key just assigned returns the assigned value. -/
theorem lookupVar_setVar_same (xs : AbiVars) (k : String) (v : Int) :
    lookupVar (setVar xs k v) k = some v := by
  simp [lookupVar, setVar]

/-- Filtering out the bindings of one key does not change find? for a
different key. -/
theorem find?_filter_ne (xs : AbiVars) (k q : String) (h : q ≠ k) :
    (xs.filter (fun p => p.1 ≠ k)).find? (fun p => p.1 = q)
      = xs.find? (fun p => p.1 = q) := by
  induction xs with
  | nil => rfl
  | cons a l ih =>
    by_cases ha : a.1 = k
    · have hfil : (a :: l).filter (fun p => decide (p.1 ≠ k)) = l.filter (fun p => decide (p.1 ≠ k)) := by
        rw [List.filter_cons]
        simp [ha]
      have haq : decide (a.1 = q) = false := by
        simp only [decide_eq_false_iff_not]
        exact fun hq => h (hq ▸ ha)
      rw [hfil, ih, List.find?_cons]
      simp only [haq]
    · have hfil : (a :: l).filter (fun p => decide (p.1 ≠ k))
          = a :: l.filter (fun p => decide (p.1 ≠ k)) := by
        rw [List.filter_cons]
        simp [ha]
      rw [hfil, List.find?_cons, List.find?_cons]
      cases hq : decide (a.1 = q) with
      | true => rfl
      | false => exact ih

/-- Assigning one key leaves the lookup of a different key unchanged. -/
theorem lookupVar_setVar_ne (xs : AbiVars) (k q : String) (v : Int) (h : q ≠ k) :
    lookupVar (setVar xs k v) q = lookupVar xs q := by
  have hkq : decide ((k, v).1 = q) = false := by
    simp only [decide_eq_false_iff_not]
    exact fun hq => h hq.symm
  unfold lookupVar setVar
  rw [List.find?_cons]
  simp only [hkq]
  rw [find?_filter_ne xs k q h]

/-- The loop over multi[1:] leaves the first dataset untouched. -/
theorem patch_tail_head (multi : List AbiVars) (key : String) (v : Int) :
    (patch_tail multi key v).head? = multi.head? := by
  cases multi <;> rfl

/-- Every dataset after the first carries the patched binding. -/
theorem patch_tail_get (multi : List AbiVars) (key : String) (v : Int)
    (i : Nat) (h1 : 1 ≤ i) (hi : i < (patch_tail multi key v).length) :
    lookupVar ((patch_tail multi key v)[i]) key = some v := by
  cases multi with
  | nil => simp [patch_tail] at hi
  | cons f rest =>
    cases i with
    | zero => omega
    | succ j =>
      have hj : j < rest.length := by
        simp [patch_tail] at hi
        omega
      show lookupVar ((f :: rest.map fun inp => setVar inp key v)[j + 1]) key = some v
      rw [List.getElem_cons_succ, List.getElem_map]
      exact lookupVar_setVar_same _ _ _

/-- C5: every successful ebands or phonons deck has getwfk = 1 on every
dataset with index 2..N (positions 1..N-1 here); moreover the deck is the
respective factory output with only the tail patched, and its first
dataset is exactly the factory's first dataset (the handler sets nothing
on dataset 1). The factory output is pinned down through the resolved
structure and pseudopotential table. -/
theorem C5_getwfk_backref (env : Env) (options : Options) (multi : List AbiVars)
    (h : ebands_deck env options = .ok multi ∨ phonons_deck env options = .ok multi) :
    (∀ i, 1 ≤ i → ∀ hi : i < multi.length, lookupVar (multi[i]) "getwfk" = some 1) ∧
    (∃ s p, get_structure env options = .ok s ∧ get_pseudotable env options = .ok p ∧
      (ebands_deck env options = .ok multi →
          multi = patch_tail (env.ebands_factory s p) "getwfk" 1 ∧
          multi.head? = (env.ebands_factory s p).head?) ∧
      (phonons_deck env options = .ok multi →
          multi = patch_tail (env.phonons_factory (env.gs_factory s p)) "getwfk" 1 ∧
          multi.head? = (env.phonons_factory (env.gs_factory s p)).head?)) := by
  have hsp : ∃ s p, get_structure env options = .ok s ∧ get_pseudotable env options = .ok p := by
    rcases h with h | h
    · rw [ebands_deck] at h
      cases hs : get_structure env options with
      | error e => rw [hs] at h; cases h
      | ok s =>
        rw [hs] at h
        cases hp : get_pseudotable env options with
        | error e => rw [hp] at h; cases h
        | ok p => exact ⟨s, p, rfl, rfl⟩
    · rw [phonons_deck] at h
      cases hs : get_structure env options with
      | error e => rw [hs] at h; cases h
      | ok s =>
        rw [hs] at h
        cases hp : get_pseudotable env options with
        | error e => rw [hp] at h; cases h
        | ok p => exact ⟨s, p, rfl, rfl⟩
  obtain ⟨s, p, hs, hp⟩ := hsp
  have hE : ebands_deck env options
      = .ok (patch_tail (env.ebands_factory s p) "getwfk" 1) := by
    rw [ebands_deck, hs, hp]
  have hP : phonons_deck env options
      = .ok (patch_tail (env.phonons_factory (env.gs_factory s p)) "getwfk" 1) := by
    rw [phonons_deck, hs, hp]
  have hmE : ebands_deck env options = .ok multi →
      multi = patch_tail (env.ebands_factory s p) "getwfk" 1 := by
    intro he
    rw [he] at hE
    exact Except.ok.inj hE
  have hmP : phonons_deck env options = .ok multi →
      multi = patch_tail (env.phonons_factory (env.gs_factory s p)) "getwfk" 1 := by
    intro he
    rw [he] at hP
    exact Except.ok.inj hP
  refine ⟨?_, s, p, hs, hp,
      fun he => ⟨hmE he, by rw [hmE he, patch_tail_head]⟩,
      fun he => ⟨hmP he, by rw [hmP he, patch_tail_head]⟩⟩
  rcases h with h | h
  · rw [hmE h]
    exact fun i h1 hi => patch_tail_get _ "getwfk" 1 i h1 hi
  · rw [hmP h]
    exact fun i h1 hi => patch_tail_get _ "getwfk" 1 i h1 hi

/-- C5 witness: the theorem applied to the concrete two-dataset ebands
result of the witness environment; the second dataset carries getwfk = 1
and the first dataset is the factory output's first dataset, untouched. -/
theorem C5_getwfk_backref_witness :
    lookupVar (([[("iscf", 7)], [("getwfk", 1), ("iscf", -2)]] : List AbiVars)[1]) "getwfk"
      = some 1 ∧
    ([[("iscf", 7)], [("getwfk", 1), ("iscf", -2)]] : List AbiVars).head?
      = some [("iscf", 7)] := by
  have T := C5_getwfk_backref envBase optsBase [[("iscf", 7)], [("getwfk", 1), ("iscf", -2)]]
      (Or.inl rfl)
  refine ⟨T.1 1 (by decide) (by decide), ?_⟩
  obtain ⟨s, p, hs, hp, hEb, hPh⟩ := T.2
  rw [(hEb rfl).2]
  rfl

/-- C4 counterexample: on a nonexistent path beginning with mp-, the gs
handler fails with the file loader error instead of fetching the structure
remotely, while the ebands handler on the same options succeeds through
the remote branch — the case analysis is not identical across the four
deck-generation verbs, refuting the claim for gs. -/
theorem C4_counterexample :
    abinp_gs envBase { optsBase with filepath := "mp-149" }
        = .error (.fileNotFound "mp-149") ∧
    abinp_ebands envBase { optsBase with filepath := "mp-149" }
        = .ok ("DECK" :: "\n" :: disclaimer, 0) := by
  constructor <;> rfl

/-- C4 amended: ebands, phonons and g0w0 resolve their structure through
get_structure, so a nonexistent mp- path is fetched remotely and an
existing file is loaded from disk, with identical case analysis across
these three verbs; gs instead loads the path with Structure.from_file
directly and therefore fails on any nonexistent path, mp- or not, while
agreeing with the others on existing files. -/
theorem C4_structure_resolution (env : Env) (options : Options) (p : PseudoSrc)
    (hp : get_pseudotable env options = .ok p) :
    (env.fileExists options.filepath = false →
     str_startswith options.filepath "mp-" = true →
      (ebands_deck env options
          = .ok (patch_tail (env.ebands_factory
              (.fromMpid options.filepath options.mapi_key options.endpoint) p) "getwfk" 1) ∧
       phonons_deck env options
          = .ok (patch_tail (env.phonons_factory (env.gs_factory
              (.fromMpid options.filepath options.mapi_key options.endpoint) p)) "getwfk" 1) ∧
       g0w0_deck env options
          = .ok (patch_last_getscr (patch_tail (env.g0w0_factory
              (.fromMpid options.filepath options.mapi_key options.endpoint) p) "getwfk" (-1))) ∧
       abinp_gs env options = .error (.fileNotFound options.filepath))) ∧
    (env.fileExists options.filepath = true →
      (ebands_deck env options
          = .ok (patch_tail (env.ebands_factory (.fromFile options.filepath) p) "getwfk" 1) ∧
       phonons_deck env options
          = .ok (patch_tail (env.phonons_factory
              (env.gs_factory (.fromFile options.filepath) p)) "getwfk" 1) ∧
       g0w0_deck env options
          = .ok (patch_last_getscr (patch_tail
              (env.g0w0_factory (.fromFile options.filepath) p) "getwfk" (-1))) ∧
       abinp_gs env options
          = .ok (finalize env [env.gs_factory (.fromFile options.filepath) p] options))) := by
  constructor
  · intro hne hmp
    have hs : get_structure env options
        = .ok (.fromMpid options.filepath options.mapi_key options.endpoint) := by
      rw [get_structure, hne, hmp]
      rfl
    refine ⟨?_, ?_, ?_, ?_⟩
    · rw [ebands_deck, hs, hp]
    · rw [phonons_deck, hs, hp]
    · rw [g0w0_deck, hs, hp]
    · rw [abinp_gs, structure_from_file, hne]
      rfl
  · intro hex
    have hs : get_structure env options = .ok (.fromFile options.filepath) := by
      rw [get_structure, hex]
      rfl
    refine ⟨?_, ?_, ?_, ?_⟩
    · rw [ebands_deck, hs, hp]
    · rw [phonons_deck, hs, hp]
    · rw [g0w0_deck, hs, hp]
    · rw [abinp_gs, structure_from_file, hex]
      simp only [if_true]
      rw [hp]

/-- C4 witness: the amended theorem applied at concrete inputs, exercising
the remote branch for ebands and the local-failure branch for gs on a
nonexistent mp- path, and the local branch of all four verbs on an
existing file. -/
theorem C4_structure_resolution_witness :
    (ebands_deck envBase { optsBase with filepath := "mp-149" }
        = .ok [[("iscf", 7)], [("getwfk", 1), ("iscf", -2)]] ∧
     abinp_gs envBase { optsBase with filepath := "mp-149" }
        = .error (.fileNotFound "mp-149")) ∧
    abinp_gs envBase optsBase = .ok ("DECK" :: "\n" :: disclaimer, 0) :=
  ⟨⟨((C4_structure_resolution envBase { optsBase with filepath := "mp-149" }
        (.dojoTable "ONCVPSP-PBE-PDv0.2-accuracy") rfl).1 (by decide) (by decide)).1,
    ((C4_structure_resolution envBase { optsBase with filepath := "mp-149" }
        (.dojoTable "ONCVPSP-PBE-PDv0.2-accuracy") rfl).1 (by decide) (by decide)).2.2.2⟩,
   ((C4_structure_resolution envBase optsBase
        (.dojoTable "ONCVPSP-PBE-PDv0.2-accuracy") rfl).2 (by decide)).2.2.2⟩

/-- C7: finalize returns exit code 0 unconditionally and its output is the
deck rendering followed by a blank line and the fixed three-line
disclaimer; consequently an end-to-end gs invocation with an existing
local structure file and an explicit pseudopotential file list returns
exit code 0 with that output shape. -/
theorem C7_finalize_exit0 (env : Env) (options : Options) (obj : List AbiVars)
    (ps : List String)
    (hf : env.fileExists options.filepath = true)
    (hps : options.pseudos = some ps) :
    ((finalize env obj options).2 = 0 ∧
     (finalize env obj options).1
        = env.render options.mnemonics obj :: "\n" :: disclaimer) ∧
    abinp_gs env options
      = .ok (env.render options.mnemonics
              [env.gs_factory (.fromFile options.filepath) (.fromFiles ps)]
            :: "\n" :: disclaimer, 0) := by
  refine ⟨⟨rfl, rfl⟩, ?_⟩
  rw [abinp_gs, structure_from_file, hf]
  simp only [if_true]
  rw [get_pseudotable, hps]
  rfl

/-- C7 witness: the theorem applied at the concrete witness environment
with an existing file and explicit pseudopotentials. -/
theorem C7_finalize_exit0_witness :
    abinp_gs envBase { optsBase with pseudos := some ["Si.psp8"] }
      = .ok ("DECK" :: "\n" :: disclaimer, 0) :=
  (C7_finalize_exit0 envBase { optsBase with pseudos := some ["Si.psp8"] }
      [] ["Si.psp8"] (by decide) rfl).2

/-- C8: when the input is built, the space-group handler returns the
nonzero return code of the external validation subprocess as is; when the
subprocess returns 0 but parsing its output file raises, the handler
returns the distinct code 1; and when the parse succeeds it returns 0. -/
theorem C8_abispg_codes (env : Env) (options : Options) (inp : AbiVars)
    (hb : build_abinit_input_from_file env options
            [("chkprim", 0), ("mem_test", 0)] = .ok inp) :
    ((env.abivalidate inp).retcode ≠ 0 →
        abinp_abispg env options = .ok (env.abivalidate inp).retcode) ∧
    ((env.abivalidate inp).retcode = 0 →
      (∀ e, (env.abivalidate inp).parseOutput = .error e →
          abinp_abispg env options = .ok 1) ∧
      ((env.abivalidate inp).parseOutput = .ok () →
          abinp_abispg env options = .ok 0)) := by
  refine ⟨fun hne => ?_, fun h0 => ⟨fun e he => ?_, fun hok => ?_⟩⟩
  · rw [abinp_abispg, hb]
    simp only [if_pos hne]
  · rw [abinp_abispg, hb]
    simp only [h0]
    rw [if_neg (by simp), he]
  · rw [abinp_abispg, hb]
    simp only [h0]
    rw [if_neg (by simp), hok]

/-- C8 witness: the theorem applied in three concrete environments, one
per branch: a failing subprocess (code 7), a successful subprocess with a
failing output parse, and a fully successful run. -/
theorem C8_abispg_codes_witness :
    abinp_abispg { envBase with abivalidate := fun _ =>
        { retcode := 7, parseOutput := .ok () } } optsBase = .ok 7 ∧
    abinp_abispg { envBase with abivalidate := fun _ =>
        { retcode := 0, parseOutput := .error "bad header" } } optsBase = .ok 1 ∧
    abinp_abispg envBase optsBase = .ok 0 :=
  ⟨(C8_abispg_codes { envBase with abivalidate := fun _ =>
        { retcode := 7, parseOutput := .ok () } } optsBase
        [("mem_test", 0), ("chkprim", 0), ("ecut", 10)] rfl).1 (by decide),
   ((C8_abispg_codes { envBase with abivalidate := fun _ =>
        { retcode := 0, parseOutput := .error "bad header" } } optsBase
        [("mem_test", 0), ("chkprim", 0), ("ecut", 10)] rfl).2 rfl).1
        "bad header" rfl,
   ((C8_abispg_codes envBase optsBase
        [("mem_test", 0), ("chkprim", 0), ("ecut", 10)] rfl).2 rfl).2 rfl⟩

/-- C10: for a 1-based dataset index jdtset, build_abinit_input_from_file
selects dataset jdtset (position jdtset - 1) from the file, adds the
jdtset variable exactly when the file holds more than one dataset, and
applies the handler-supplied override variables last, so they take
precedence over the variables extracted from the file. -/
theorem C10_build_from_file (env : Env) (options : Options)
    (k1 k2 : String) (v1 v2 : Int) (inp : AbiVars)
    (hj : 1 ≤ options.jdtset) (hk : k1 ≠ k2)
    (hb : build_abinit_input_from_file env options [(k1, v1), (k2, v2)] = .ok inp) :
    ∃ vars,
      (env.readAbifile options.filepath).datasets.get? (options.jdtset - 1).toNat
          = some vars ∧
      inp = updateVars
          (if (env.readAbifile options.filepath).ndtset ≠ 1
           then setVar vars "jdtset" options.jdtset else vars) [(k1, v1), (k2, v2)] ∧
      lookupVar inp k1 = some v1 ∧
      lookupVar inp k2 = some v2 ∧
      ((env.readAbifile options.filepath).ndtset ≠ 1 → "jdtset" ≠ k1 → "jdtset" ≠ k2 →
          lookupVar inp "jdtset" = some options.jdtset) ∧
      ((env.readAbifile options.filepath).ndtset = 1 → "jdtset" ≠ k1 → "jdtset" ≠ k2 →
          lookupVar inp "jdtset" = lookupVar vars "jdtset") := by
  cases hps : get_pseudotable env options with
  | error e =>
    simp only [build_abinit_input_from_file, hps] at hb
    cases hb
  | ok p =>
    have hnn : (0 : Int) ≤ options.jdtset - 1 := by omega
    cases hv : (env.readAbifile options.filepath).datasets.get?
        (options.jdtset - 1).toNat with
    | none =>
      simp only [build_abinit_input_from_file, hps, pyGet] at hb
      rw [if_pos hnn, hv] at hb
      cases hb
    | some vars =>
      have hforward : build_abinit_input_from_file env options [(k1, v1), (k2, v2)]
          = .ok (updateVars
              (if (env.readAbifile options.filepath).ndtset ≠ 1
               then setVar vars "jdtset" options.jdtset else vars)
              [(k1, v1), (k2, v2)]) := by
        simp only [build_abinit_input_from_file, hps, pyGet]
        rw [if_pos hnn, hv]
      rw [hforward] at hb
      have hinp := (Except.ok.inj hb).symm
      refine ⟨vars, rfl, hinp, ?_, ?_, ?_, ?_⟩
      · rw [hinp]
        show lookupVar (setVar (setVar _ k1 v1) k2 v2) k1 = some v1
        rw [lookupVar_setVar_ne _ k2 k1 v2 hk, lookupVar_setVar_same]
      · rw [hinp]
        show lookupVar (setVar (setVar _ k1 v1) k2 v2) k2 = some v2
        rw [lookupVar_setVar_same]
      · intro hne hj1 hj2
        rw [hinp, if_pos hne]
        show lookupVar (setVar (setVar (setVar vars "jdtset" options.jdtset) k1 v1) k2 v2)
            "jdtset" = some options.jdtset
        rw [lookupVar_setVar_ne _ k2 _ v2 hj2, lookupVar_setVar_ne _ k1 _ v1 hj1,
            lookupVar_setVar_same]
      · intro h1 hj1 hj2
        rw [hinp, if_neg (not_not_intro h1)]
        show lookupVar (setVar (setVar vars k1 v1) k2 v2) "jdtset" = lookupVar vars "jdtset"
        rw [lookupVar_setVar_ne _ k2 _ v2 hj2, lookupVar_setVar_ne _ k1 _ v1 hj1]

/-- An environment whose input file holds two datasets, for exercising the
jdtset-selection branch. -/
def envMulti : Env :=
  { envBase with readAbifile := fun _ =>
      { datasets := [[("ecut", 10)], [("ecut", 20)]], ndtset := 2 } }

/-- C10 witness: the theorem applied with jdtset = 2 on a two-dataset
file and the abispg overrides; the overrides and the added jdtset variable
are all present in the result. -/
theorem C10_build_from_file_witness :
    lookupVar [("mem_test", 0), ("chkprim", 0), ("jdtset", 2), ("ecut", 20)] "chkprim"
        = some 0 ∧
    lookupVar [("mem_test", 0), ("chkprim", 0), ("jdtset", 2), ("ecut", 20)] "mem_test"
        = some 0 ∧
    lookupVar [("mem_test", 0), ("chkprim", 0), ("jdtset", 2), ("ecut", 20)] "jdtset"
        = some 2 := by
  obtain ⟨vars, hv, hinp, h1, h2, h3, h4⟩ :=
    C10_build_from_file envMulti { optsBase with jdtset := 2 } "chkprim" "mem_test" 0 0
      [("mem_test", 0), ("chkprim", 0), ("jdtset", 2), ("ecut", 20)]
      (by decide) (by decide) rfl
  exact ⟨h1, h2, h3 (by decide) (by decide) (by decide)⟩

/-- The verbs registered as subparsers in get_parser (abinp.py lines
335-375), each dispatched to the handler of the same name. -/
def validVerbs : List String :=
  ["validate", "autoparal", "abispg", "ibz", "phperts", "gs", "ebands",
   "phonons", "g0w0", "anaph", "wannier90"]

/-- Observable outcome of one CLI invocation before handler execution:
termination with an exit code (recording whether usage text went to
standard error), or dispatch to the handler of a verb. -/
inductive MainOutcome where
  | exit (code : Int) (usageToStderr : Bool)
  | dispatch (verb : String)
  deriving DecidableEq, Repr

/-- Translation of main (abinp.py lines 380-409) combined with the
documented behavior of the argparse collaborator. An unrecognized
subcommand makes parse_args print usage to standard error and terminate
the process with SystemExit status 2 (documented argparse error behavior;
SystemExit does not derive from Exception, so the except clause around
parse_args does not catch it). A missing subcommand parses successfully
with command = None, upon which main writes the epilog to standard error
and exits with code 1. A registered verb is dispatched to its handler. -/
def main_outcome (verbArg : Option String) : MainOutcome :=
  match verbArg with
  | none => .exit 1 true
  | some v => if validVerbs.contains v then .dispatch v else .exit 2 true

/-- C6 counterexample: an unrecognized verb terminates the process with
exit code 2 (argparse's error status), not the claimed exit code 1. -/
theorem C6_counterexample :
    main_outcome (some "frobnicate") = .exit 2 true ∧
    main_outcome (some "frobnicate") ≠ .exit 1 true := by
  constructor
  · rfl
  · decide

/-- C6 amended: invoking with no verb writes the usage text to standard
error and exits with code 1; an unrecognized verb is rejected by the
argument parser, which writes usage to standard error and exits with code
2; only registered verbs are dispatched, and every non-dispatch outcome
carries usage text on standard error and exit code 1 or 2. -/
theorem C6_bad_args_no_dispatch (v : Option String) :
    (v = none → main_outcome v = .exit 1 true) ∧
    (∀ s, v = some s → validVerbs.contains s = false → main_outcome v = .exit 2 true) ∧
    (∀ s, v = some s → validVerbs.contains s = true → main_outcome v = .dispatch s) ∧
    (∀ c u, main_outcome v = .exit c u → u = true ∧ (c = 1 ∨ c = 2)) := by
  refine ⟨fun hn => ?_, fun s hs hc => ?_, fun s hs hc => ?_, fun c u he => ?_⟩
  · rw [hn]; rfl
  · rw [hs, main_outcome, if_neg (by simpa using hc)]
  · rw [hs, main_outcome, if_pos (by simpa using hc)]
  · cases v with
    | none =>
      cases he
      exact ⟨rfl, Or.inl rfl⟩
    | some s =>
      rw [main_outcome] at he
      by_cases hc : validVerbs.contains s = true
      · rw [if_pos hc] at he
        cases he
      · rw [if_neg hc] at he
        cases he
        exact ⟨rfl, Or.inr rfl⟩

/-- C6 witness: the amended theorem applied at the three concrete
argument shapes: no verb, an unknown verb, and a known verb. -/
theorem C6_bad_args_no_dispatch_witness :
    main_outcome none = .exit 1 true ∧
    main_outcome (some "frobnicate2") = .exit 2 true ∧
    main_outcome (some "gs") = .dispatch "gs" :=
  ⟨(C6_bad_args_no_dispatch none).1 rfl,
   (C6_bad_args_no_dispatch (some "frobnicate2")).2.1 "frobnicate2" rfl (by decide),
   (C6_bad_args_no_dispatch (some "gs")).2.2.1 "gs" rfl (by decide)⟩

end Abinp

namespace Printing

open Abinp

/-- A pandas DataFrame as used by print_dataframe: column labels and rows
of numeric cells. -/
structure DataFrame where
  columns : List String
  rows : List (List Rat)
  deriving DecidableEq, Repr

/-- The ambient display options of the pandas display engine that
print_dataframe overrides inside its option_context. -/
structure DisplayOptions where
  max_rows : Nat
  max_columns : Nat
  precision : Nat
  deriving DecidableEq, Repr

/-- Value of row r in column j, with the 0 default standing in for a
missing cell of a ragged row. -/
def cellAt (r : List Rat) (j : Nat) : Rat :=
  (r.get? j).getD 0

/-- Model of pandas DataFrame.sort_values(key, inplace=False): a new frame
whose rows are stably sorted ascending by the key column; the input frame
is a value and stays what it was. -/
def sort_values (df : DataFrame) (key : String) : DataFrame :=
  match df.columns.indexOf? key with
  | none => df
  | some j => { df with rows := df.rows.mergeSort (fun r1 r2 => cellAt r1 j ≤ cellAt r2 j) }

/-- Model of the display engine under given options: it renders at most
max_rows rows and at most max_columns column labels. -/
def shownRows (opts : DisplayOptions) (rows : List (List Rat)) : List (List Rat) :=
  rows.take opts.max_rows

/-- Column labels rendered under the given options. -/
def shownCols (opts : DisplayOptions) (cols : List String) : List String :=
  cols.take opts.max_columns

/-- The observable outcome of one print_dataframe call: what was written
(title, column labels, rows) and the post-call state of the caller's
frame and of the ambient display options. -/
structure PrintResult where
  titleOut : Option String
  outColumns : List String
  outRows : List (List Rat)
  frameAfter : DataFrame
  ambientAfter : DisplayOptions
  deriving DecidableEq, Repr

/-- The frame actually displayed, after the conditional rebinding on
lines 20-21 of printing.py: the sorted copy when sortby is given and names
a column of the frame, the frame itself otherwise. -/
def viewOf (frame : DataFrame) (sortby : Option String) : DataFrame :=
  match sortby with
  | none => frame
  | some key => if frame.columns.contains key then sort_values frame key else frame

/-- Translation of print_dataframe (printing.py lines 7-29): optional
title first; when sortby is given and is among the frame's columns the
local name is rebound to the sorted copy (inplace=False), the caller's
frame is untouched; the rendering runs inside an option_context that sets
max_rows and max_columns to the full size of the displayed frame and is
restored on exit, leaving the ambient options as they were. -/
def print_dataframe (ambient : DisplayOptions) (frame : DataFrame)
    (title : Option String) (precision : Nat) (sortby : Option String) : PrintResult :=
  let view := viewOf frame sortby
  let ctx : DisplayOptions :=
    { max_rows := view.rows.length, max_columns := view.columns.length,
      precision := precision }
  { titleOut := title,
    outColumns := shownCols ctx view.columns,
    outRows := shownRows ctx view.rows,
    frameAfter := frame,
    ambientAfter := ambient }

/-- Sorting does not change the column labels. -/
theorem sort_values_columns (df : DataFrame) (key : String) :
    (sort_values df key).columns = df.columns := by
  rw [sort_values]
  cases df.columns.indexOf? key <;> rfl

/-- The rows of the sorted frame are a permutation of the original rows. -/
theorem sort_values_rows_perm (df : DataFrame) (key : String) :
    (sort_values df key).rows.Perm df.rows := by
  rw [sort_values]
  cases df.columns.indexOf? key with
  | none => exact List.Perm.refl _
  | some j => exact List.mergeSort_perm df.rows _

/-- With no sort key the displayed view is the frame itself. -/
theorem viewOf_none (f : DataFrame) : viewOf f none = f := rfl

/-- With a sort key absent from the columns the displayed view is the
frame itself, unsorted. -/
theorem viewOf_absent (f : DataFrame) (key : String)
    (h : f.columns.contains key = false) : viewOf f (some key) = f := by
  rw [viewOf, if_neg]
  simpa using h

/-- With a sort key present among the columns the displayed view is the
sorted copy. -/
theorem viewOf_present (f : DataFrame) (key : String)
    (h : f.columns.contains key = true) : viewOf f (some key) = sort_values f key := by
  rw [viewOf, if_pos h]

/-- The displayed view keeps the column labels of the frame. -/
theorem viewOf_columns (f : DataFrame) (s : Option String) :
    (viewOf f s).columns = f.columns := by
  cases s with
  | none => rfl
  | some key =>
    by_cases hc : f.columns.contains key = true
    · rw [viewOf_present f key hc, sort_values_columns]
    · rw [viewOf_absent f key (by rw [Bool.eq_false_iff]; exact hc)]

/-- The rows of the displayed view are a permutation of the frame's rows. -/
theorem viewOf_rows_perm (f : DataFrame) (s : Option String) :
    List.Perm (viewOf f s).rows f.rows := by
  cases s with
  | none => exact List.Perm.refl _
  | some key =>
    by_cases hc : f.columns.contains key = true
    · rw [viewOf_present f key hc]
      exact sort_values_rows_perm f key
    · rw [viewOf_absent f key (by rw [Bool.eq_false_iff]; exact hc)]

/-- The printed rows are exactly the rows of the displayed view: the
option_context lifts max_rows to the full row count, so nothing is
truncated. -/
theorem print_dataframe_outRows (ambient : DisplayOptions) (frame : DataFrame)
    (title : Option String) (precision : Nat) (sortby : Option String) :
    (print_dataframe ambient frame title precision sortby).outRows
      = (viewOf frame sortby).rows := by
  show (viewOf frame sortby).rows.take (viewOf frame sortby).rows.length
      = (viewOf frame sortby).rows
  exact List.take_length _

/-- The printed column labels are exactly those of the displayed view. -/
theorem print_dataframe_outColumns (ambient : DisplayOptions) (frame : DataFrame)
    (title : Option String) (precision : Nat) (sortby : Option String) :
    (print_dataframe ambient frame title precision sortby).outColumns
      = (viewOf frame sortby).columns := by
  show (viewOf frame sortby).columns.take (viewOf frame sortby).columns.length
      = (viewOf frame sortby).columns
  exact List.take_length _

/-- C9: print_dataframe never mutates the caller's frame and leaves the
ambient display options as they were (the truncation override is scoped to
the call); every row is shown (the output rows are a permutation of the
frame's rows) and every column label is shown; with a sort key absent from
the columns the rows are displayed unsorted, and with a present sort key
the displayed rows are those of the sorted view. -/
theorem C9_print_dataframe (ambient : DisplayOptions) (frame : DataFrame)
    (title : Option String) (precision : Nat) (sortby : Option String) :
    (print_dataframe ambient frame title precision sortby).frameAfter = frame ∧
    (print_dataframe ambient frame title precision sortby).ambientAfter = ambient ∧
    List.Perm (print_dataframe ambient frame title precision sortby).outRows frame.rows ∧
    (print_dataframe ambient frame title precision sortby).outColumns = frame.columns ∧
    (sortby = none →
        (print_dataframe ambient frame title precision sortby).outRows = frame.rows) ∧
    (∀ key, sortby = some key → frame.columns.contains key = false →
        (print_dataframe ambient frame title precision sortby).outRows = frame.rows) ∧
    (∀ key, sortby = some key → frame.columns.contains key = true →
        (print_dataframe ambient frame title precision sortby).outRows
          = (sort_values frame key).rows) := by
  refine ⟨rfl, rfl, ?_, ?_, ?_, ?_, ?_⟩
  · rw [print_dataframe_outRows]
    exact viewOf_rows_perm frame sortby
  · rw [print_dataframe_outColumns]
    exact viewOf_columns frame sortby
  · intro hn
    rw [print_dataframe_outRows, hn, viewOf_none]
  · intro key hk hf
    rw [print_dataframe_outRows, hk, viewOf_absent frame key hf]
  · intro key hk hf
    rw [print_dataframe_outRows, hk, viewOf_present frame key hf]

/-- C9 witness: the theorem applied to a concrete two-row frame with a
present sort key and, separately, with an absent sort key. -/
theorem C9_print_dataframe_witness :
    (print_dataframe { max_rows := 1, max_columns := 1, precision := 6 }
        { columns := ["b", "a"], rows := [[0, 5], [0, 2]] } none 6 (some "a")).outRows
      = (sort_values { columns := ["b", "a"], rows := [[0, 5], [0, 2]] } "a").rows ∧
    (print_dataframe { max_rows := 1, max_columns := 1, precision := 6 }
        { columns := ["b", "a"], rows := [[0, 5], [0, 2]] } none 6 (some "zz")).outRows
      = [[0, 5], [0, 2]] ∧
    (print_dataframe { max_rows := 1, max_columns := 1, precision := 6 }
        { columns := ["b", "a"], rows := [[0, 5], [0, 2]] } none 6 (some "a")).ambientAfter
      = { max_rows := 1, max_columns := 1, precision := 6 } :=
  ⟨(C9_print_dataframe { max_rows := 1, max_columns := 1, precision := 6 }
      { columns := ["b", "a"], rows := [[0, 5], [0, 2]] } none 6 (some "a")).2.2.2.2.2.2
      "a" rfl (by decide),
   (C9_print_dataframe { max_rows := 1, max_columns := 1, precision := 6 }
      { columns := ["b", "a"], rows := [[0, 5], [0, 2]] } none 6 (some "zz")).2.2.2.2.2.1
      "zz" rfl (by decide),
   (C9_print_dataframe { max_rows := 1, max_columns := 1, precision := 6 }
      { columns := ["b", "a"], rows := [[0, 5], [0, 2]] } none 6 (some "a")).2.1⟩

end Printing

namespace Ucells

open Abinp

/-- A Python value as stored in the unit-cell records: an int, a float
(represented exactly as a rational, which the literals of ucells.py are),
or a reference to a list object on the heap. -/
inductive PyVal where
  | int (n : Int)
  | rat (q : Rat)
  | list (addr : Nat)
  deriving DecidableEq, Repr

/-- Contents of one Python list object. -/
abbrev PyList := List PyVal

/-- The heap of list objects: address to contents. -/
abbrev Heap := List (Nat × PyList)

/-- A Python dict from field name to value. -/
abbrev PyDict := List (String × PyVal)

/-- Dereference a list address. -/
def heapGet (h : Heap) (a : Nat) : Option PyList :=
  (h.find? (fun p => p.1 = a)).map (fun p => p.2)

/-- Replace the contents of the list object at an address. -/
def heapSet (h : Heap) (a : Nat) (xs : PyList) : Heap :=
  h.map (fun p => if p.1 = a then (a, xs) else p)

/-- Python list item assignment obj[i] = v performed on the object at the
given address. -/
def heapSetItem (h : Heap) (a : Nat) (i : Nat) (v : PyVal) : Heap :=
  match heapGet h a with
  | none => h
  | some xs => heapSet h a (xs.set i v)

/-- Python dict lookup d[k]. -/
def lookupDict (d : PyDict) (k : String) : Option PyVal :=
  (d.find? (fun p => p.1 = k)).map (fun p => p.2)

/-- The heap of list objects built by the module-level _UCELLS literal of
ucells.py: every bracketed list in the source is one object. Addresses
0-8 belong to the silicon record (typat, acell, the three rprim rows,
rprim, the two xred rows, xred), addresses 9-18 to the zno record. -/
def ucellsHeap : Heap :=
  [(0, [.int 1, .int 1]),
   (1, [.rat 10.217, .rat 10.217, .rat 10.217]),
   (2, [.rat 0, .rat 0.5, .rat 0.5]),
   (3, [.rat 0.5, .rat 0, .rat 0.5]),
   (4, [.rat 0.5, .rat 0.5, .rat 0]),
   (5, [.list 2, .list 3, .list 4]),
   (6, [.rat 0, .rat 0, .rat 0]),
   (7, [.rat 0.25, .rat 0.25, .rat 0.25]),
   (8, [.list 6, .list 7]),
   (9, [.int 1, .int 2]),
   (10, [.rat 8.6277, .rat 8.6277, .rat 8.6277]),
   (11, [.rat 0, .rat 0.5, .rat 0.5]),
   (12, [.rat 0.5, .rat 0, .rat 0.5]),
   (13, [.rat 0.5, .rat 0.5, .rat 0]),
   (14, [.list 11, .list 12, .list 13]),
   (15, [.int 30, .int 8]),
   (16, [.rat 0, .rat 0, .rat 0]),
   (17, [.rat 0.25, .rat 0.25, .rat 0.25]),
   (18, [.list 16, .list 17])]

/-- The stored silicon record (ucells.py lines 26-36): scalar fields
inline, sequence fields as references into ucellsHeap. -/
def siliconRecord : PyDict :=
  [("ntypat", .int 1), ("natom", .int 2), ("typat", .list 0), ("znucl", .int 14),
   ("acell", .list 1), ("rprim", .list 5), ("xred", .list 8)]

/-- The stored zno record (ucells.py lines 38-45). -/
def znoRecord : PyDict :=
  [("ntypat", .int 2), ("natom", .int 2), ("typat", .list 9), ("acell", .list 10),
   ("rprim", .list 14), ("znucl", .list 15), ("xred", .list 18)]

/-- The module-level _UCELLS mapping (ucells.py lines 25-46). -/
def ucellsTable : List (String × PyDict) :=
  [("silicon", siliconRecord), ("zno", znoRecord)]

/-- Translation of ucell_names (ucells.py lines 13-14). -/
def ucell_names : List String :=
  ucellsTable.map (fun p => p.1)

/-- Translation of ucell (ucells.py lines 17-18): an absent name raises
KeyError; otherwise the result is _UCELLS[name].copy(). A dict.copy() is
shallow: the caller receives a fresh top-level dict holding the same
values, so the list references of the nested sequence fields are shared
with the registry; here the fresh dict is the returned entry list and the
shared references are the unchanged heap addresses inside it. -/
def ucell (name : String) : Except Err PyDict :=
  match (ucellsTable.find? (fun p => p.1 = name)).map (fun p => p.2) with
  | none => .error (.keyError name)
  | some d => .ok d

/-- A Python value fully dereferenced through the heap (with fuel for the
nesting depth), as Python equality == would compare it. -/
inductive PureVal where
  | int (n : Int)
  | rat (q : Rat)
  | list (xs : List PureVal)

/-- Dereference a value through the heap down to a pure tree. -/
def resolveVal (h : Heap) : Nat → PyVal → Option PureVal
  | _, .int n => some (.int n)
  | _, .rat q => some (.rat q)
  | 0, .list _ => none
  | fuel + 1, .list a =>
    match heapGet h a with
    | none => none
    | some xs => (xs.mapM (fun v => resolveVal h fuel v)).map PureVal.list

/-- C2 counterexample: both calls of ucell "silicon" return the same
record, whose typat field is the shared list object at heap address 0;
before any mutation that object resolves to [1, 1], and after the nested
item assignment typat[0] = 99 made through the first returned record, the
typat field of the second returned record resolves to [99, 1] — the
mutation is visible through the second call's result, so the stored record
is not deep-copied and the claimed mutation-isolation fails. -/
theorem C2_counterexample :
    ucell "silicon" = .ok siliconRecord ∧
    lookupDict siliconRecord "typat" = some (.list 0) ∧
    resolveVal ucellsHeap 3 (.list 0) = some (.list [.int 1, .int 1]) ∧
    resolveVal (heapSetItem ucellsHeap 0 0 (.int 99)) 3 (.list 0)
        = some (.list [.int 99, .int 1]) ∧
    resolveVal (heapSetItem ucellsHeap 0 0 (.int 99)) 3 (.list 0)
        ≠ resolveVal ucellsHeap 3 (.list 0) := by
  refine ⟨rfl, rfl, rfl, rfl, ?_⟩
  intro h
  have h2 : PureVal.list [PureVal.int 99, PureVal.int 1]
      = PureVal.list [PureVal.int 1, PureVal.int 1] := Option.some.inj h
  have h3 : ([PureVal.int 99, PureVal.int 1] : List PureVal)
      = [PureVal.int 1, PureVal.int 1] := by injection h2
  have h4 : PureVal.int 99 = PureVal.int 1 := by injection h3
  have h5 : (99 : Int) = 1 := by injection h4
  exact absurd h5 (by decide)

/-- C2 amended: lookup of an absent name fails with the KeyError
equivalent; lookup of a registered name returns the stored record through
a shallow dict copy, so two successive calls return equal records whose
nested sequence fields are the same shared list objects (the mutation
isolation of the claim holds only for the top-level dict, not for the
nested sequences, as the counterexample shows). -/
theorem C2_lookup_shallow (name : String) :
    (name ≠ "silicon" → name ≠ "zno" → ucell name = .error (.keyError name)) ∧
    (∀ d1 d2, ucell name = .ok d1 → ucell name = .ok d2 →
        d1 = d2 ∧ lookupDict d1 "typat" = lookupDict d2 "typat") := by
  constructor
  · intro h1 h2
    rw [ucell]
    have hf : (ucellsTable.find? (fun p => p.1 = name)).map (fun p => p.2) = none := by
      rw [ucellsTable, List.find?_cons, List.find?_cons]
      have e1 : decide ((("silicon", siliconRecord) : String × PyDict).1 = name) = false := by
        simp only [decide_eq_false_iff_not]
        exact fun hq => h1 hq.symm
      have e2 : decide ((("zno", znoRecord) : String × PyDict).1 = name) = false := by
        simp only [decide_eq_false_iff_not]
        exact fun hq => h2 hq.symm
      simp only [e1, e2]
      rfl
    rw [hf]
  · intro d1 d2 hd1 hd2
    have : d1 = d2 := by
      rw [hd1] at hd2
      exact Except.ok.inj hd2
    exact ⟨this, by rw [this]⟩

/-- C2 amended witness: the theorem applied at the absent name "nacl" and
at the registered name "silicon" with the two successive results. -/
theorem C2_lookup_shallow_witness :
    ucell "nacl" = .error (.keyError "nacl") ∧
    siliconRecord = siliconRecord ∧
    lookupDict siliconRecord "typat" = lookupDict siliconRecord "typat" :=
  ⟨(C2_lookup_shallow "nacl").1 (by decide) (by decide),
   ((C2_lookup_shallow "silicon").2 siliconRecord siliconRecord rfl rfl).1 ▸ rfl,
   ((C2_lookup_shallow "silicon").2 siliconRecord siliconRecord rfl rfl).2⟩

end Ucells
